import Mathlib

/-!
Shallow embedding of the mcp-conductor sandboxed code-execution engine
(`src/executor/permissions.ts`, `src/executor/runCode.ts`, the dependency-aware
`RunCode` variant, `src/executor/allowlist.ts`, `src/mcp-proxy/rpc-server.ts`
and `src/mcp-proxy/manager.ts`), together with theorems settling the
specification claims about it.

JavaScript strings are modelled as Lean `String`; where universally quantified
reasoning over strings is needed, explicit `List Char` helpers mirror the
JavaScript operations (`startsWith`, `split`, `includes`, `join`).
-/

/-- `listHasPfx p l` : `p` is a prefix of `l` (models JS `String.startsWith`
on character lists). -/
def listHasPfx : List Char → List Char → Bool
  | [], _ => true
  | _ :: _, [] => false
  | p :: ps, x :: xs => p = x && listHasPfx ps xs

/-- Models JS `s.startsWith(p)`. -/
def strStartsWith (s p : String) : Bool :=
  listHasPfx p.toList s.toList

/-- Models JS `s.includes(pat)` (substring containment). -/
def strContains (s pat : String) : Bool :=
  let ss := s.toList
  (List.range (ss.length + 1)).any (fun i => listHasPfx pat.toList (ss.drop i))

/-- Models JS `l.split(c)` for a single-character separator, on character
lists: every occurrence of `c` splits, adjacent separators give empty
fields, and the empty list yields one empty field. -/
def splitOnChar (c : Char) (l : List Char) : List (List Char) :=
  l.foldr
    (fun x acc =>
      if x = c then [] :: acc
      else
        match acc with
        | [] => [[x]]
        | h :: t => (x :: h) :: t)
    [[]]

/-- Models JS `parts.join(sep)`. -/
def strJoin (sep : String) (parts : List String) : String :=
  String.intercalate sep parts

/-! ## Permission Broker (`src/executor/permissions.ts`) -/

/-- The value of one capability field of `DenoPermissions`:
absent (`undefined`), a boolean, or an array of strings. -/
inductive PermValue
  | absent
  | bool (b : Bool)
  | strs (l : List String)
  deriving DecidableEq, Repr

/-- `DenoPermissions` from `src/types/types.ts`: per-capability
boolean / string-array / absent values, plus the boolean-only
`hrtime` and the superseding `all` field. -/
structure DenoPermissions where
  all : Option Bool := none
  net : PermValue := .absent
  read : PermValue := .absent
  write : PermValue := .absent
  env : PermValue := .absent
  run : PermValue := .absent
  ffi : PermValue := .absent
  hrtime : Option Bool := none
  deriving DecidableEq, Repr

/-- One capability's contribution to the flag list: the source's
`if (perms.x === true) push(flag) else if (Array.isArray(perms.x) &&
perms.x.length > 0) push(flag + "=" + perms.x.join(","))`. -/
def capFlags (flag : String) (v : PermValue) : List String :=
  match v with
  | .bool true => [flag]
  | .strs l => if l.length > 0 then [flag ++ "=" ++ strJoin "," l] else []
  | _ => []

/-- `PermissionBuilder.build`: sequential per-capability flag pushes, with the
`all` field short-circuiting to the single `--allow-all` flag (the source's
`if (perms.all) return ['--allow-all']`; truthiness of a `boolean | undefined`
field is `=== true`). -/
def PermissionBuilder.build (p : DenoPermissions) : List String :=
  if p.all = some true then ["--allow-all"]
  else
    let flags : List String := []
    let flags := flags ++ capFlags "--allow-net" p.net
    let flags := flags ++ capFlags "--allow-read" p.read
    let flags := flags ++ capFlags "--allow-write" p.write
    let flags := flags ++ capFlags "--allow-env" p.env
    let flags := flags ++ capFlags "--allow-run" p.run
    let flags := flags ++ capFlags "--allow-ffi" p.ffi
    let flags := flags ++ (if p.hrtime = some true then ["--allow-hrtime"] else [])
    flags

/-- Modelled from the spec (§4.1): one capability's flags in the
specification's wording — "`true` → bare flag; non-empty string set → flag
with comma-joined values; empty/false/absent → omit". -/
def specCapFlag (flag : String) (v : PermValue) : List String :=
  match v with
  | .bool true => [flag]
  | .strs l => if l ≠ [] then [flag ++ "=" ++ strJoin "," l] else []
  | _ => []

/-- Modelled from the spec (§4.1): the specification's wording of `build` on
the non-`all` path, applied uniformly over the capability list.  Named
separately so that `build` (transcribed from the source) can be proved to
refine it. -/
def specBuild (p : DenoPermissions) : List String :=
  ([("--allow-net", p.net), ("--allow-read", p.read), ("--allow-write", p.write),
    ("--allow-env", p.env), ("--allow-run", p.run), ("--allow-ffi", p.ffi),
    ("--allow-hrtime", match p.hrtime with | some b => .bool b | none => .absent)]
    : List (String × PermValue)).flatMap
    (fun fv => specCapFlag fv.1 fv.2)

/-- Number of present fields of the permissions object: models
`Object.keys(permissions).length`. -/
def DenoPermissions.keysCount (p : DenoPermissions) : Nat :=
  (if p.all.isSome then 1 else 0) +
  (if p.net ≠ .absent then 1 else 0) +
  (if p.read ≠ .absent then 1 else 0) +
  (if p.write ≠ .absent then 1 else 0) +
  (if p.env ≠ .absent then 1 else 0) +
  (if p.run ≠ .absent then 1 else 0) +
  (if p.ffi ≠ .absent then 1 else 0) +
  (if p.hrtime.isSome then 1 else 0)

/-- `RunCode.run`'s launch-flag computation (identical in
`src/executor/runCode.ts` and the dependency-aware variant): a non-empty
caller permissions object replaces the configured defaults outright, and
`--no-prompt` is always prepended; on the default path any `--no-prompt`
already present in the defaults is filtered out first. -/
def computeRunArgs (permissions : Option DenoPermissions)
    (defaultRunArgs : List String) : List String :=
  match permissions with
  | some p =>
      if p.keysCount > 0 then "--no-prompt" :: PermissionBuilder.build p
      else "--no-prompt" :: defaultRunArgs.filter (· ≠ "--no-prompt")
  | none => "--no-prompt" :: defaultRunArgs.filter (· ≠ "--no-prompt")

/-! ## Execution Engine (`src/executor/runCode.ts` and the dependency-aware
`RunCode` variant) -/

/-- The `errorType` union of `RunError` in `src/types/types.ts`:
`'syntax' | 'runtime' | 'timeout' | 'permission'`. -/
inductive ErrorType
  | syntaxError
  | runtime
  | timeout
  | permission
  deriving DecidableEq, Repr

/-- The parse/syntax marker test of `executeInSubprocess`'s failure
classification. -/
def syntaxMarker (error : String) : Bool :=
  strContains error "could not be parsed" || strContains error "Unexpected token" ||
  strContains error "SyntaxError" || strContains error "Parse error"

/-- The capability-denied marker test of `executeInSubprocess`'s failure
classification. -/
def permissionMarker (error : String) : Bool :=
  strContains error "NotCapable" || strContains error "Requires" ||
  strContains error "PermissionDenied" || strContains error "--allow-"

/-- What the engine observes of one spawned subprocess: whether the deadline
timer callback ran, the exit code reported by `process.status`, and the
non-blank line lists drained from stdout and stderr. -/
structure SubprocessObs where
  timerFired : Bool
  exitCode : Int
  stdoutData : List String
  stderrData : List String
  deriving DecidableEq, Repr

/-- The record returned by `executeInSubprocess`. -/
structure SubprocessResult where
  success : Bool
  output : List String
  returnValue : Option String
  error : String
  errorType : ErrorType
  deriving DecidableEq, Repr

/-- The namespaced return-value marker. -/
def mcpMarker : String := "__MCP_RETURN_VALUE__:"

/-- The stdout pass of `executeInSubprocess`: a line carrying the marker is
extracted as the return value (last one wins), every other line is retained
as ordinary output. -/
def extractReturnValue (stdoutData : List String) : Option String × List String :=
  stdoutData.foldl
    (fun acc line =>
      if strStartsWith line mcpMarker then
        (some (String.mk (line.toList.drop mcpMarker.toList.length)), acc.2)
      else (acc.1, acc.2 ++ [line]))
    (none, [])

/-- The captured error message of a non-zero exit:
`stderrData.join('\n') || "Process exited with code " + status.code`
(the empty string is falsy in JS). -/
def capturedErrorMsg (obs : SubprocessObs) : String :=
  let joined := strJoin "\n" obs.stderrData
  if joined ≠ "" then joined else "Process exited with code " ++ toString obs.exitCode

/-- The failure classification of `executeInSubprocess`: parse/syntax
markers first, then capability-denied markers, else runtime. -/
def classifyError (error : String) : ErrorType :=
  if syntaxMarker error then ErrorType.syntaxError
  else if permissionMarker error then ErrorType.permission
  else ErrorType.runtime

/-- The result-assembly logic of `executeInSubprocess` after both streams and
the exit status have been collected: the timer callback (if it fired) has
already set `success = false`, `errorType = 'timeout'` and the timeout
message; a non-zero exit with `success` still true captures stderr as the
error message and classifies it. -/
def processStreams (obs : SubprocessObs) (timeout : Nat) : SubprocessResult :=
  let success0 := !obs.timerFired
  let error0 :=
    if obs.timerFired then "Execution timed out after " ++ toString timeout ++ "ms" else ""
  let errorType0 := if obs.timerFired then ErrorType.timeout else ErrorType.runtime
  let rv := extractReturnValue obs.stdoutData
  let output := rv.2 ++ obs.stderrData
  if obs.exitCode ≠ 0 && success0 then
    ⟨false, output, rv.1, capturedErrorMsg obs, classifyError (capturedErrorMsg obs)⟩
  else
    ⟨success0, output, rv.1, error0, errorType0⟩

/-- `RunResult` from `src/types/types.ts`: the success/error union (the
`executionTime` field, a wall-clock measurement, is not modelled). -/
inductive RunResult
  | ok (output : List String) (returnValue : Option String)
  | err (output : List String) (msg : String) (errorType : ErrorType)
  deriving DecidableEq, Repr

/-- The `status` discriminant of a `RunResult`. -/
def RunResult.statusStr : RunResult → String
  | .ok _ _ => "success"
  | .err _ _ _ => "error"

/-- The `errorType` field of a `RunResult`, when it is an error. -/
def RunResult.errorKind : RunResult → Option ErrorType
  | .ok _ _ => none
  | .err _ _ t => some t

/-- The hard-coded `defaultTimeout` of `RunCode` (30 000 ms). -/
def defaultTimeout : Nat := 30000

/-- The hard-coded `maxTimeout` of `RunCode` (300 000 ms). -/
def maxTimeout : Nat := 300000

/-- `Math.min(options.timeout ?? this.defaultTimeout, this.maxTimeout)`. -/
def effectiveTimeout (requested : Option Nat) : Nat :=
  min (requested.getD defaultTimeout) maxTimeout

/-- `ExecutionOptions` (the fields the modelled claims depend on). -/
structure ExecutionOptions where
  code : String := ""
  timeout : Option Nat := none
  permissions : Option DenoPermissions := none
  dependencies : Option (List String) := none
  deriving Repr

/-- `RunCode.run` of `src/executor/runCode.ts` (the variant without
dependency installation), as a function of the request and of what the
spawned subprocess is observed to do: computes the effective timeout, runs
the subprocess-result assembly and maps it onto the `RunResult` union. -/
def runModel (opts : ExecutionOptions) (obs : SubprocessObs) : RunResult :=
  let timeout := effectiveTimeout opts.timeout
  let r := processStreams obs timeout
  if r.success then .ok r.output r.returnValue
  else .err r.output r.error r.errorType

/-! ### Two-phase dependency install (dependency-aware `RunCode.run` /
`installDependencies` / `executeInSubprocess`) -/

/-- What the engine observes of the phase-1 install subprocess. -/
structure InstallObs where
  exitCode : Int
  stdoutData : List String
  stderrData : List String
  deriving DecidableEq, Repr

/-- The record returned by `installDependencies` (exit-code path): output is
stdout then stderr; a non-zero exit yields failure with the
`Dependency installation failed:` message; success carries the import-map
file inside the fresh dependency cache directory. -/
structure InstallResult where
  success : Bool
  importMapFile : Option String
  depsDir : Option String
  output : List String
  error : String
  deriving DecidableEq, Repr

/-- `installDependencies`: the phase-1 subprocess is spawned in a fresh temp
directory `depsDir` with flags `--no-prompt --allow-read --allow-write
--allow-net`; its outcome is classified by exit code. -/
def installDependenciesModel (depsDir : String) (obs : InstallObs) : InstallResult :=
  let output := obs.stdoutData ++ obs.stderrData
  if obs.exitCode ≠ 0 then
    ⟨false, none, none, output,
      "Dependency installation failed: " ++ strJoin "\n" obs.stderrData⟩
  else
    ⟨true, some (depsDir ++ "/import_map.json"), some depsDir, output, ""⟩

/-- The phase-1 install spawn's launch flags (fixed by `installDependencies`). -/
def installFlags : List String :=
  ["run", "--no-prompt", "--allow-read", "--allow-write", "--allow-net",
   "--import-map"]

/-- The argument list built by the dependency-aware `executeInSubprocess`:
`['run', ...permissionFlags]`, then `'--import-map', mapFile` when
dependencies were installed, then the script path. -/
def phase2Args (runArgs : List String) (importMapFile : Option String)
    (scriptPath : String) : List String :=
  ["run"] ++ runArgs ++
    (match importMapFile with
     | some f => ["--import-map", f]
     | none => []) ++ [scriptPath]

/-- The outcome of one dependency-aware `RunCode.run` call: the returned
`RunResult`, and the full argument list of the phase-2 spawn when it
happened (`none` when phase 2 never ran). -/
structure RunOutcome where
  result : RunResult
  phase2 : Option (List String)
  deriving DecidableEq, Repr

/-- The dependency-aware `RunCode.run` (the `workspace.ts` claims' variant)
on a request with a non-empty dependency list: compute launch flags, run
phase-1 install in the fresh `depsDir`; a failed install returns an error
result (`errorType: 'runtime'`, install output, install error message) and
phase 2 never runs; otherwise phase 2 spawns the wrapped script (written
under the fresh `tmpDir`) with the import map, and its observed behaviour is
assembled exactly as in `runModel`. -/
def runWithDepsModel (defaultRunArgs : List String) (opts : ExecutionOptions)
    (depsDir tmpDir : String) (install : InstallObs) (exec : SubprocessObs) :
    RunOutcome :=
  let timeout := effectiveTimeout opts.timeout
  let runArgs := computeRunArgs opts.permissions defaultRunArgs
  match opts.dependencies with
  | some deps =>
      if deps.length > 0 then
        let ir := installDependenciesModel depsDir install
        if !ir.success then
          ⟨.err ir.output ir.error .runtime, none⟩
        else
          let scriptPath := tmpDir ++ "/script.ts"
          let args := phase2Args runArgs ir.importMapFile scriptPath
          let r := processStreams exec timeout
          ⟨if r.success then .ok r.output r.returnValue
            else .err r.output r.error r.errorType, some args⟩
      else
        let scriptPath := tmpDir ++ "/script.ts"
        let args := phase2Args runArgs none scriptPath
        let r := processStreams exec timeout
        ⟨if r.success then .ok r.output r.returnValue
          else .err r.output r.error r.errorType, some args⟩
  | none =>
      let scriptPath := tmpDir ++ "/script.ts"
      let args := phase2Args runArgs none scriptPath
      let r := processStreams exec timeout
      ⟨if r.success then .ok r.output r.returnValue
        else .err r.output r.error r.errorType, some args⟩

/-- The claim-level notion "this launch flag grants write permission covering
directory `dir`": the all-capabilities flag, the bare write flag, or a
scoped write flag one of whose comma-separated paths is a prefix of `dir`
(prefix coverage is a generous over-approximation of Deno's path
containment, which only strengthens the safety statements proved below). -/
def grantsWriteTo (flag : String) (dir : String) : Bool :=
  let fl := flag.toList
  fl = "--allow-all".toList || fl = "--allow-write".toList ||
  (listHasPfx "--allow-write=".toList fl &&
    (splitOnChar ',' (fl.drop "--allow-write=".toList.length)).any
      (fun p => listHasPfx p dir.toList))

/-! ## Dependency Allowlist Validator (`src/executor/allowlist.ts`) -/

/-- The character positions of `'@'` in a string's character list (JS string
indices coincide with character indices on the ASCII inputs involved). -/
def atIndices (cs : List Char) : List Nat :=
  (List.range cs.length).filter (fun i => cs.getD i ' ' = '@')

/-- `normalizePackage`: split on `'@'`; for a scoped specifier
(`npm:@` / `jsr:@`) rejoin the first **3** parts, otherwise keep the first
part only. -/
def normalizePackage (dependency : String) : String :=
  let parts := (splitOnChar '@' dependency.toList).map String.mk
  if strStartsWith dependency "npm:@" || strStartsWith dependency "jsr:@" then
    strJoin "@" (parts.take 3)
  else
    parts.headD ""

/-- `getVersionConstraint`: the substring after the last `'@'`
(for scoped specifiers, after the first `'@'` at index ≥ 5), or `none` when
there is no such separator. -/
def getVersionConstraint (allowedDep : String) : Option String :=
  let cs := allowedDep.toList
  let idxs := atIndices cs
  match idxs.getLast? with
  | none => none
  | some lastIdx =>
      if strStartsWith allowedDep "npm:@" || strStartsWith allowedDep "jsr:@" then
        match (idxs.filter (fun i => 5 ≤ i)).head? with
        | none => none
        | some j => some (String.mk (cs.drop (j + 1)))
      else
        some (String.mk (cs.drop (lastIdx + 1)))

/-- `enrichDependencyWithVersion`: return the dependency unchanged when
normalization differs from it; otherwise append the version constraint of
the first allowlist entry whose normalization equals it (the source's
`if (constraint)` makes an empty-string constraint falsy). -/
def enrichDependencyWithVersion (dependency : String)
    (allowedList : List String) : String :=
  let normalizedDep := normalizePackage dependency
  if normalizedDep ≠ dependency then dependency
  else
    match allowedList.find? (fun allowed => normalizePackage allowed = normalizedDep) with
    | some allowed =>
        match getVersionConstraint allowed with
        | some constraint =>
            if constraint ≠ "" then dependency ++ "@" ++ constraint else dependency
        | none => dependency
    | none => dependency

/-! ## RPC Bridge (`src/mcp-proxy/rpc-server.ts`) -/

/-- The wire `method` field: the fixed enum, or any other string value. -/
inductive RPCMethod
  | callTool
  | listTools
  | listResources
  | readResource
  | listPrompts
  | getPrompt
  | other (name : String)
  deriving DecidableEq, Repr

/-- A parsed `MCPRPCRequest` body; `args = none` models a missing or
non-array `args` field, and argument values themselves are irrelevant to the
claims, so only the count is kept. -/
structure MCPRPCRequest where
  server : String
  method : RPCMethod
  args : Option (List Unit)
  deriving DecidableEq, Repr

/-- `validateRPCArgs` from `src/mcp-proxy/factory.ts`: a non-array `args`
or too few arguments throws. -/
def validateRPCArgs (args : Option (List Unit)) (expected : Nat)
    (method : String) : Except String Unit :=
  match args with
  | none => .error ("Invalid args for " ++ method ++ ": expected array")
  | some l =>
      if l.length < expected then
        .error ("Invalid args for " ++ method ++ ": expected at least " ++
          toString expected ++ ", got " ++ toString l.length)
      else .ok ()

/-- `isValidServerName`: the regular expression `^[a-zA-Z0-9_-]+$`. -/
def isValidServerName (s : String) : Bool :=
  !s.toList.isEmpty && s.toList.all (fun c => c.isAlphanum || c = '-' || c = '_')

/-- The fate of one request body before dispatch: rejected as oversized
(`getRequestBody` destroys the socket and throws), failed JSON parsing
(with the engine's parse-error message), or a parsed request. -/
inductive BridgeBody
  | oversized
  | malformed (parseError : String)
  | parsed (req : MCPRPCRequest)
  deriving DecidableEq, Repr

/-- The observable HTTP answer of `handleRPCRequest`: status code, the
`error` field of the JSON body (if set), and whether a `result` field is
present. -/
structure BridgeResponse where
  status : Nat
  error : Option String
  hasResult : Bool
  deriving DecidableEq, Repr

/-- `MCPRPCServer.handleRPCRequest`: a wrong or missing bearer token answers
401; an oversized or unparsable body propagates to the outer catch and
answers 500; an invalid server name throws (outer catch, 500); the method
switch runs inside an inner try whose catch records the thrown message into
the `error` field of an HTTP-200 response — the `default` branch of the
switch (a method outside the enum) throws inside that inner try.  The
outcome of the forwarded Manager operation is abstracted as `manager`. -/
def handleRPCRequest (token : String) (authHeader : Option String)
    (body : BridgeBody) (manager : Except String Unit) : BridgeResponse :=
  if authHeader ≠ some ("Bearer " ++ token) then ⟨401, some "Unauthorized", false⟩
  else
    match body with
    | .oversized => ⟨500, some "Request body too large", false⟩
    | .malformed parseError => ⟨500, some parseError, false⟩
    | .parsed req =>
        if !isValidServerName req.server then ⟨500, some "Invalid server name", false⟩
        else
          let inner : Except String Unit :=
            match req.method with
            | .callTool => do
                let _ ← validateRPCArgs req.args 2 "callTool"
                manager
            | .listTools => manager
            | .listResources => manager
            | .readResource => do
                let _ ← validateRPCArgs req.args 1 "readResource"
                manager
            | .listPrompts => manager
            | .getPrompt => do
                let _ ← validateRPCArgs req.args 2 "getPrompt"
                manager
            | .other m => .error ("Unknown method: " ++ m)
          match inner with
          | .ok _ => ⟨200, none, true⟩
          | .error e => ⟨200, some e, false⟩

/-! ## Tool-Proxy Manager (`src/mcp-proxy/manager.ts`) -/

/-- The cached per-server entry (`MCPClientEntry`); `clientConnected` models
`client !== null`, and tool/resource/prompt descriptors are kept as opaque
labels. -/
structure MCPClientEntry where
  clientConnected : Bool
  tools : List String
  resources : List String
  prompts : List String
  description : String
  error : Option String
  deriving DecidableEq, Repr

/-- One declarative server entry of the external config. -/
structure ServerEntryConfig where
  command : Option String := none
  url : Option String := none
  disabled : Bool := false
  deriving DecidableEq, Repr

/-- JS truthiness of an optional string field (`undefined` and `""` are
falsy). -/
def truthyStr (o : Option String) : Bool :=
  match o with
  | some s => s ≠ ""
  | none => false

/-- What the external world answers to one client's connection attempt:
the `connect` outcome, the reported server-info name, and the three catalog
fetches. -/
structure ConnectOracle where
  connect : Except String Unit
  serverName : Option String
  toolsCall : Except String (List String)
  resourcesCall : Except String (List String)
  promptsCall : Except String (List String)

/-- `MCPManager.initializeClient`: an entry with neither a truthy `command`
nor a truthy `url` throws (caught: error recorded); a connection failure is
recorded on the entry; after connecting, the description and tools are
filled (a tools failure is caught by the same outer catch), resource and
prompt fetches are best-effort (failure yields an empty catalog), and only
then is the client attached. -/
def initializeClient (name : String) (cfg : ServerEntryConfig)
    (o : ConnectOracle) : MCPClientEntry :=
  let e0 : MCPClientEntry := ⟨false, [], [], [], "", none⟩
  if !truthyStr cfg.command && !truthyStr cfg.url then
    { e0 with error := some "No command or url specified" }
  else
    match o.connect with
    | .error msg => { e0 with error := some msg }
    | .ok _ =>
        let desc :=
          match o.serverName with
          | some s => if s = "" then name else s
          | none => name
        let e1 := { e0 with description := desc }
        match o.toolsCall with
        | .error msg => { e1 with error := some msg }
        | .ok ts =>
            let e2 := { e1 with tools := ts }
            let e3 := { e2 with
              resources := match o.resourcesCall with | .ok rs => rs | .error _ => [] }
            let e4 := { e3 with
              prompts := match o.promptsCall with | .ok ps => ps | .error _ => [] }
            { e4 with clientConnected := true }

/-- `MCPManager.initialize` after config loading and validation: every
enabled entry is initialized (concurrently in the source; each settles its
own key of the client map, modelled as an association list in config
order). -/
def initializeModel (entries : List (String × ServerEntryConfig))
    (world : String → ConnectOracle) : List (String × MCPClientEntry) :=
  (entries.filter (fun p => !p.2.disabled)).map
    (fun p => (p.1, initializeClient p.1 p.2 (world p.1)))

/-! ## Helper lemmas -/

lemma capFlags_eq_specCapFlag (flag : String) (v : PermValue) :
    capFlags flag v = specCapFlag flag v := by
  cases v with
  | absent => rfl
  | bool b => cases b <;> rfl
  | strs l => cases l <;> simp [capFlags, specCapFlag]

lemma grantsWriteTo_false_of_head (f d : String) (c : Char)
    (hc : f.toList.head? = some c) (h1 : ¬ c = '-') : grantsWriteTo f d = false := by
  obtain ⟨t, ht⟩ : ∃ t, f.data = c :: t := by
    have hc' : f.data.head? = some c := hc
    cases h : f.data with
    | nil => rw [h] at hc'; simp at hc'
    | cons a l =>
        rw [h] at hc'; simp at hc'
        exact ⟨l, by rw [hc']⟩
  have e1 : "--allow-all".toList = ['-','-','a','l','l','o','w','-','a','l','l'] := by decide
  have e2 : "--allow-write".toList = ['-','-','a','l','l','o','w','-','w','r','i','t','e'] := by
    decide
  have e3 : "--allow-write=".toList =
      ['-','-','a','l','l','o','w','-','w','r','i','t','e','='] := by decide
  simp [grantsWriteTo, String.toList, ht, e1, e2, e3, listHasPfx, h1, Ne.symm h1]

lemma grantsWriteTo_run (d : String) : grantsWriteTo "run" d = false := by
  have e3 : "--allow-write=".toList =
      ['-','-','a','l','l','o','w','-','w','r','i','t','e','='] := by decide
  simp [grantsWriteTo, e3, listHasPfx]

lemma grantsWriteTo_import_map_flag (d : String) :
    grantsWriteTo "--import-map" d = false := by
  have e3 : "--allow-write=".toList =
      ['-','-','a','l','l','o','w','-','w','r','i','t','e','='] := by decide
  simp [grantsWriteTo, e3, listHasPfx]

lemma head_append_slash (a b : String) (h : a.toList.head? = some '/') :
    (a ++ b).toList.head? = some '/' := by
  have hab : (a ++ b).data = a.data ++ b.data := String.data_append a b
  have h' : a.data.head? = some '/' := h
  cases hd : a.data with
  | nil => rw [hd] at h'; simp at h'
  | cons x l =>
      rw [hd] at h'; simp at h'
      simp [String.toList, hab, hd, h']

/-! ## Claim theorems -/

/-- C7: `build` returns exactly `['--allow-all']` when the `all` field is
true, regardless of every other field; otherwise it is the per-capability
flag list of the specification's rule (bare flag for `true`, comma-joined
flag for a non-empty string set, nothing for empty/false/absent); and the
all-empty permission spec yields the empty flag list. -/
theorem C7_build_all_and_per_capability (p : DenoPermissions) :
    PermissionBuilder.build p =
      (if p.all = some true then ["--allow-all"] else specBuild p) ∧
    PermissionBuilder.build {} = [] := by
  constructor
  · by_cases h : p.all = some true
    · simp [PermissionBuilder.build, h]
    · simp only [PermissionBuilder.build, specBuild, h, if_neg,
        List.flatMap_cons, List.flatMap_nil, List.append_nil, List.nil_append,
        capFlags_eq_specCapFlag, List.append_assoc]
      cases hh : p.hrtime with
      | none => simp [specCapFlag]
      | some b => cases b <;> simp [specCapFlag]
  · decide

/-- C10 counterexample: on the default path the flag list is **not** always
`'--no-prompt'` followed by the configured defaults verbatim — a default
list already containing `'--no-prompt'` is deduplicated, not appended. -/
theorem C10_counterexample :
    computeRunArgs none ["--no-prompt"] = ["--no-prompt"] ∧
    computeRunArgs none ["--no-prompt"] ≠ ["--no-prompt", "--no-prompt"] := by decide

/-- C10 (amended): a non-empty caller permissions object makes the flag
list exactly `'--no-prompt'` followed by the flags built from it (every
configured default is discarded); on the default path the flag list is
`'--no-prompt'` followed by the configured defaults with any `'--no-prompt'`
occurrences removed; `'--no-prompt'` is the first flag of every spawn. -/
theorem C10_run_args (p : DenoPermissions) (defaults ds : List String) :
    (p.keysCount > 0 →
      computeRunArgs (some p) defaults = "--no-prompt" :: PermissionBuilder.build p) ∧
    computeRunArgs none ds = "--no-prompt" :: ds.filter (· ≠ "--no-prompt") ∧
    (computeRunArgs (some p) defaults).head? = some "--no-prompt" ∧
    (computeRunArgs none ds).head? = some "--no-prompt" := by
  refine ⟨fun h => ?_, rfl, ?_, rfl⟩
  · simp [computeRunArgs, h]
  · by_cases h : p.keysCount > 0 <;> simp [computeRunArgs, h]

/-- C10 witness: a concrete non-empty permission spec (`write: true`)
discards the configured default `--allow-read`. -/
theorem C10_run_args_witness :
    DenoPermissions.keysCount
      ⟨none, .absent, .absent, .bool true, .absent, .absent, .absent, none⟩ > 0 ∧
    computeRunArgs
      (some ⟨none, .absent, .absent, .bool true, .absent, .absent, .absent, none⟩)
      ["--allow-read"] =
      "--no-prompt" :: PermissionBuilder.build
        ⟨none, .absent, .absent, .bool true, .absent, .absent, .absent, none⟩ :=
  ⟨by decide,
    (C10_run_args ⟨none, .absent, .absent, .bool true, .absent, .absent, .absent, none⟩
      ["--allow-read"] []).1 (by decide)⟩

/-- C5: whenever the deadline timer fires, the result is status `error` with
`errorKind = timeout` and the timeout message built from the effective
timeout, regardless of the exit code and of any output produced; moreover
the effective timeout is `min(requested, configured max)`, else the
configured default. -/
theorem C5_timeout_always_wins (opts : ExecutionOptions) (obs : SubprocessObs)
    (h : obs.timerFired = true) :
    (runModel opts obs).statusStr = "error" ∧
    (runModel opts obs).errorKind = some ErrorType.timeout ∧
    runModel opts obs =
      .err ((extractReturnValue obs.stdoutData).2 ++ obs.stderrData)
        ("Execution timed out after " ++ toString (effectiveTimeout opts.timeout) ++ "ms")
        ErrorType.timeout ∧
    (∀ t, effectiveTimeout (some t) = min t maxTimeout) ∧
    effectiveTimeout none = defaultTimeout := by
  refine ⟨?_, ?_, ?_, fun t => rfl, by decide⟩ <;>
    simp [runModel, processStreams, h, RunResult.statusStr, RunResult.errorKind]

/-- C5 witness: a fired timer on a subprocess that exited non-zero with late
output still yields the timeout kind. -/
theorem C5_timeout_always_wins_witness :
    (SubprocessObs.timerFired ⟨true, 1, ["late output"], []⟩) = true ∧
    (runModel ⟨"", none, none, none⟩ ⟨true, 1, ["late output"], []⟩).errorKind =
      some ErrorType.timeout :=
  ⟨rfl, (C5_timeout_always_wins ⟨"", none, none, none⟩ ⟨true, 1, ["late output"], []⟩
    rfl).2.1⟩

/-- C6: a non-zero exit without the timer having fired is classified from
the captured error message — syntax markers first, then permission markers,
else runtime — and the timeout kind is never produced on this path. -/
theorem C6_failure_classification (opts : ExecutionOptions) (obs : SubprocessObs)
    (h1 : obs.timerFired = false) (h2 : obs.exitCode ≠ 0) :
    (runModel opts obs).statusStr = "error" ∧
    (runModel opts obs).errorKind =
      some (if syntaxMarker (capturedErrorMsg obs) then ErrorType.syntaxError
        else if permissionMarker (capturedErrorMsg obs) then ErrorType.permission
        else ErrorType.runtime) ∧
    (runModel opts obs).errorKind ≠ some ErrorType.timeout := by
  refine ⟨?_, ?_, ?_⟩ <;>
    · simp [runModel, processStreams, h1, h2, RunResult.statusStr, RunResult.errorKind,
        classifyError]
      try (split <;> simp_all)
      try (split <;> simp_all)

/-- C6 witness: a capability-denied message on a non-zero exit yields the
permission kind. -/
theorem C6_failure_classification_witness :
    (SubprocessObs.timerFired ⟨false, 1, [], ["NotCapable: write access denied"]⟩) = false ∧
    (SubprocessObs.exitCode ⟨false, 1, [], ["NotCapable: write access denied"]⟩) ≠ 0 ∧
    (runModel ⟨"", none, none, none⟩
      ⟨false, 1, [], ["NotCapable: write access denied"]⟩).errorKind =
      some ErrorType.permission :=
  ⟨rfl, by decide, by
    have h := (C6_failure_classification ⟨"", none, none, none⟩
      ⟨false, 1, [], ["NotCapable: write access denied"]⟩ rfl (by decide)).2.1
    exact h.trans (congrArg some (by decide))⟩

/-- C1 counterexample: with a caller-supplied permission spec of
`write: true`, the phase-2 launch-flag list contains `--allow-write`, a flag
granting write permission covering the phase-1 dependency cache directory —
the claim's universal quantification over permission specs is false. -/
theorem C1_counterexample :
    (runWithDepsModel []
        ⟨"", none,
          some ⟨none, .absent, .absent, .bool true, .absent, .absent, .absent, none⟩,
          some ["npm:axios@^1"]⟩
        "/tmp/mcp-deno-deps-1" "/tmp/mcp-run-deno-1"
        ⟨0, ["Dependencies installed"], []⟩ ⟨false, 0, [], []⟩).phase2 =
      some ["run", "--no-prompt", "--allow-write", "--import-map",
        "/tmp/mcp-deno-deps-1/import_map.json", "/tmp/mcp-run-deno-1/script.ts"] ∧
    ((runWithDepsModel []
        ⟨"", none,
          some ⟨none, .absent, .absent, .bool true, .absent, .absent, .absent, none⟩,
          some ["npm:axios@^1"]⟩
        "/tmp/mcp-deno-deps-1" "/tmp/mcp-run-deno-1"
        ⟨0, ["Dependencies installed"], []⟩ ⟨false, 0, [], []⟩).phase2.getD []).any
      (fun f => grantsWriteTo f "/tmp/mcp-deno-deps-1") = true := by decide

/-- C1 (amended): dependency handling itself never adds write access — if no
flag of the caller-derived launch-flag list grants write permission covering
the phase-1 dependency cache directory, then no flag of the phase-2 spawn's
full argument list does either (the added `run`, `--import-map`, map-file
and script-path arguments are never write-granting flags). -/
theorem C1_no_write_added (defaultRunArgs : List String) (opts : ExecutionOptions)
    (depsDir tmpDir : String) (install : InstallObs) (exec : SubprocessObs)
    (hd : depsDir.toList.head? = some '/')
    (htd : tmpDir.toList.head? = some '/')
    (hsafe : (computeRunArgs opts.permissions defaultRunArgs).all
      (fun f => !grantsWriteTo f depsDir) = true) :
    ((runWithDepsModel defaultRunArgs opts depsDir tmpDir install exec).phase2.getD []).all
      (fun f => !grantsWriteTo f depsDir) = true := by
  have hmap : grantsWriteTo (depsDir ++ "/import_map.json") depsDir = false :=
    grantsWriteTo_false_of_head _ _ '/' (head_append_slash _ _ hd) (by decide)
  have hscript : grantsWriteTo (tmpDir ++ "/script.ts") depsDir = false :=
    grantsWriteTo_false_of_head _ _ '/' (head_append_slash _ _ htd) (by decide)
  have hrun := grantsWriteTo_run depsDir
  have him := grantsWriteTo_import_map_flag depsDir
  unfold runWithDepsModel
  cases hdeps : opts.dependencies with
  | none =>
      simp [phase2Args, List.all_append, hrun, him, hscript, hmap, hsafe]
  | some deps =>
      by_cases hlen : deps.length > 0
      · simp only [hlen, if_pos]
        by_cases hins : (installDependenciesModel depsDir install).success
        · simp [hins, installDependenciesModel] at *
          by_cases hic : install.exitCode = 0
          · simp [installDependenciesModel, hic, phase2Args, List.all_append,
              hrun, him, hscript, hmap, hsafe]
            rintro a (h | rfl | rfl | rfl)
            · exact hsafe a h
            · exact him
            · exact hmap
            · exact hscript
          · simp [installDependenciesModel, hic] at hins
        · simp [hins]
      · simp [hlen, phase2Args, List.all_append, hrun, him, hscript, hmap, hsafe]

/-- C1 witness: under the default (empty) permission path with no
write-granting defaults, the concrete phase-2 argument list contains no flag
granting write over the dependency cache directory. -/
theorem C1_no_write_added_witness :
    ("/tmp/deps".toList.head? = some '/') ∧
    ("/tmp/work".toList.head? = some '/') ∧
    (computeRunArgs none []).all (fun f => !grantsWriteTo f "/tmp/deps") = true ∧
    ((runWithDepsModel [] ⟨"", none, none, some ["npm:axios@^1"]⟩ "/tmp/deps" "/tmp/work"
        ⟨0, [], []⟩ ⟨false, 0, [], []⟩).phase2.getD []).all
      (fun f => !grantsWriteTo f "/tmp/deps") = true :=
  ⟨by decide, by decide, by decide,
    C1_no_write_added [] ⟨"", none, none, some ["npm:axios@^1"]⟩ "/tmp/deps" "/tmp/work"
      ⟨0, [], []⟩ ⟨false, 0, [], []⟩ (by decide) (by decide) (by decide)⟩

/-- C2 counterexample: a failed phase-1 install yields `errorKind = runtime`
— the very kind an ordinary phase-2 failure produces (third conjunct) — so
no dedicated dependency-install error kind is returned (the `errorType`
union has no such member). -/
theorem C2_counterexample :
    (runWithDepsModel [] ⟨"", none, none, some ["npm:left-pad"]⟩ "/tmp/deps" "/tmp/work"
        ⟨1, [], ["boom"]⟩ ⟨false, 0, [], []⟩).result.errorKind =
      some ErrorType.runtime ∧
    (runWithDepsModel [] ⟨"", none, none, some ["npm:left-pad"]⟩ "/tmp/deps" "/tmp/work"
        ⟨1, [], ["boom"]⟩ ⟨false, 0, [], []⟩).phase2 = none ∧
    (runModel ⟨"", none, none, none⟩ ⟨false, 1, [], ["ordinary failure"]⟩).errorKind =
      some ErrorType.runtime := by decide

/-- C2 (amended): a non-zero phase-1 install exit aborts the call — the
result is a status-`error` `RunResult` with `errorType = runtime` whose
message is prefixed `Dependency installation failed:`, and the phase-2 spawn
never occurs. -/
theorem C2_install_failure_aborts (defaultRunArgs : List String)
    (opts : ExecutionOptions) (deps : List String) (depsDir tmpDir : String)
    (install : InstallObs) (exec : SubprocessObs)
    (hdeps : opts.dependencies = some deps) (hne : deps ≠ [])
    (hfail : install.exitCode ≠ 0) :
    (runWithDepsModel defaultRunArgs opts depsDir tmpDir install exec).phase2 = none ∧
    (runWithDepsModel defaultRunArgs opts depsDir tmpDir install exec).result =
      .err (install.stdoutData ++ install.stderrData)
        ("Dependency installation failed: " ++ strJoin "\n" install.stderrData)
        ErrorType.runtime := by
  have hlen : deps.length > 0 := List.length_pos.mpr hne
  constructor <;>
    simp [runWithDepsModel, hdeps, hlen, installDependenciesModel, hfail]

/-- C2 witness: a concrete failing install (exit 1, stderr `boom`) never
reaches phase 2. -/
theorem C2_install_failure_aborts_witness :
    (ExecutionOptions.dependencies ⟨"", none, none, some ["npm:left-pad"]⟩ =
      some ["npm:left-pad"]) ∧
    (["npm:left-pad"] ≠ ([] : List String)) ∧
    ((1 : Int) ≠ 0) ∧
    (runWithDepsModel [] ⟨"", none, none, some ["npm:left-pad"]⟩ "/tmp/deps" "/tmp/work"
      ⟨1, [], ["boom"]⟩ ⟨false, 0, [], []⟩).phase2 = none :=
  ⟨rfl, by decide, by decide,
    (C2_install_failure_aborts [] ⟨"", none, none, some ["npm:left-pad"]⟩
      ["npm:left-pad"] "/tmp/deps" "/tmp/work" ⟨1, [], ["boom"]⟩ ⟨false, 0, [], []⟩
      rfl (by decide) (by decide)).1⟩

/-- C3 counterexample: a method value outside the fixed enum is answered
with HTTP **200** and an `error` field — not an HTTP error status — because
the `default` branch of the method switch throws inside the inner
try/catch. -/
theorem C3_counterexample :
    (handleRPCRequest "tok" (some "Bearer tok")
      (.parsed ⟨"srv", .other "frobnicate", some []⟩) (.ok ())).status = 200 ∧
    (handleRPCRequest "tok" (some "Bearer tok")
      (.parsed ⟨"srv", .other "frobnicate", some []⟩) (.ok ())).error =
      some "Unknown method: frobnicate" := by decide

/-- C3 (amended): a wrong or missing bearer token is answered 401, an
oversized or malformed body 500, an invalid server name 500; an unknown
method value — like a failure of the forwarded operation itself — is
answered HTTP 200 with the `error` field set, while a successful forwarded
operation is answered HTTP 200 with `result` and no `error`. -/
theorem C3_bridge_status (token : String) (authH : Option String) (body : BridgeBody)
    (mgr : Except String Unit) (parseError srv m e : String)
    (args : Option (List Unit)) :
    (authH ≠ some ("Bearer " ++ token) →
      (handleRPCRequest token authH body mgr).status = 401) ∧
    (handleRPCRequest token (some ("Bearer " ++ token)) .oversized mgr).status = 500 ∧
    (handleRPCRequest token (some ("Bearer " ++ token))
      (.malformed parseError) mgr).status = 500 ∧
    (isValidServerName srv = false →
      (handleRPCRequest token (some ("Bearer " ++ token))
        (.parsed ⟨srv, .listTools, args⟩) mgr).status = 500) ∧
    (isValidServerName srv = true →
      handleRPCRequest token (some ("Bearer " ++ token))
        (.parsed ⟨srv, .other m, args⟩) mgr =
        ⟨200, some ("Unknown method: " ++ m), false⟩) ∧
    (isValidServerName srv = true →
      handleRPCRequest token (some ("Bearer " ++ token))
        (.parsed ⟨srv, .listTools, args⟩) (.error e) = ⟨200, some e, false⟩) ∧
    (isValidServerName srv = true →
      handleRPCRequest token (some ("Bearer " ++ token))
        (.parsed ⟨srv, .listTools, args⟩) (.ok ()) = ⟨200, none, true⟩) := by
  refine ⟨fun h => by simp [handleRPCRequest, h], by simp [handleRPCRequest],
    by simp [handleRPCRequest], fun h => by simp [handleRPCRequest, h],
    fun h => by simp [handleRPCRequest, h], fun h => by simp [handleRPCRequest, h],
    fun h => by simp [handleRPCRequest, h]⟩

/-- C3 witness: with the correct token and a valid server name, a forwarded
operation failure comes back as HTTP 200 with the error field set. -/
theorem C3_bridge_status_witness :
    isValidServerName "srv" = true ∧
    handleRPCRequest "tok" (some ("Bearer " ++ "tok"))
      (.parsed ⟨"srv", .listTools, some []⟩) (.error "mcp down") =
      ⟨200, some "mcp down", false⟩ :=
  ⟨by decide,
    (C3_bridge_status "tok" none .oversized (.error "x") "" "srv" "" "mcp down"
      (some [])).2.2.2.2.2.1 (by decide)⟩

/-- C4: for a scoped dependency specifier carrying a version constraint,
`normalizePackage` does **not** strip the version — it rejoins the first
three `@`-separated parts, which is the whole string — although it does
strip the version of an unscoped specifier.  This contradicts the function's
own documentation ("Removes version info to compare base packages" / "Keep:
npm:@scope/package"). -/
theorem C4_normalize_keeps_scoped_version :
    normalizePackage "jsr:@std/path@^1" = "jsr:@std/path@^1" ∧
    normalizePackage "jsr:@std/path@^1" ≠ normalizePackage "jsr:@std/path" ∧
    normalizePackage "jsr:@std/path" = "jsr:@std/path" ∧
    normalizePackage "npm:axios@^1" = normalizePackage "npm:axios" := by decide

/-- C8: enrichment is **not** idempotent — a scoped, already-versioned
specifier that equals an allowlist entry verbatim gets the entry's
constraint appended a second time, while an unscoped versioned specifier is
returned unchanged.  This contradicts the function's own documentation
("If dependency already has a version, return as-is"). -/
theorem C8_enrich_not_idempotent :
    enrichDependencyWithVersion "jsr:@std/path@^1" ["jsr:@std/path@^1"] =
      "jsr:@std/path@^1@^1" ∧
    enrichDependencyWithVersion "jsr:@std/path@^1" ["jsr:@std/path@^1"] ≠
      "jsr:@std/path@^1" ∧
    enrichDependencyWithVersion "npm:axios@^1" ["npm:axios@^1"] = "npm:axios@^1" := by
  decide

/-- C9: with one connectable and one non-connectable enabled entry,
initialization completes for both: each name ends up in the client map; the
failed entry records a non-null error with empty tool/resource/prompt
catalogs; the connectable entry still connects and lists its catalog. -/
theorem C9_partial_availability (a b : String) (cfgA cfgB : ServerEntryConfig)
    (world : String → ConnectOracle) (ts rs ps : List String) (msg : String)
    (hab : a ≠ b)
    (hA : cfgA.disabled = false) (hB : cfgB.disabled = false)
    (hAcmd : truthyStr cfgA.command = true) (hBcmd : truthyStr cfgB.command = true)
    (hwa : world a = ⟨.ok (), none, .ok ts, .ok rs, .ok ps⟩)
    (hwb : (world b).connect = .error msg) :
    initializeModel [(a, cfgA), (b, cfgB)] world =
      [(a, ⟨true, ts, rs, ps, a, none⟩), (b, ⟨false, [], [], [], "", some msg⟩)] ∧
    (initializeModel [(a, cfgA), (b, cfgB)] world).lookup a =
      some ⟨true, ts, rs, ps, a, none⟩ ∧
    (initializeModel [(a, cfgA), (b, cfgB)] world).lookup b =
      some ⟨false, [], [], [], "", some msg⟩ := by
  have h1 : initializeClient a cfgA (world a) = ⟨true, ts, rs, ps, a, none⟩ := by
    rw [hwa]; simp [initializeClient, hAcmd]
  have h2 : initializeClient b cfgB (world b) = ⟨false, [], [], [], "", some msg⟩ := by
    simp [initializeClient, hBcmd, hwb]
  have hba : (b == a) = false := beq_eq_false_iff_ne.mpr (Ne.symm hab)
  refine ⟨?_, ?_, ?_⟩ <;>
    simp [initializeModel, hA, hB, h1, h2, List.lookup, hba]

/-- C9 witness: a concrete two-entry configuration where `good` connects
with one tool and `bad` fails to spawn. -/
theorem C9_partial_availability_witness :
    (("good" : String) ≠ "bad") ∧
    (initializeModel
        [("good", ⟨some "deno", none, false⟩), ("bad", ⟨some "missing-cmd", none, false⟩)]
        (fun n =>
          if n = "good" then ⟨.ok (), none, .ok ["t1"], .ok [], .ok []⟩
          else ⟨.error "spawn failed", none, .ok [], .ok [], .ok []⟩)).lookup "good" =
      some ⟨true, ["t1"], [], [], "good", none⟩ ∧
    (initializeModel
        [("good", ⟨some "deno", none, false⟩), ("bad", ⟨some "missing-cmd", none, false⟩)]
        (fun n =>
          if n = "good" then ⟨.ok (), none, .ok ["t1"], .ok [], .ok []⟩
          else ⟨.error "spawn failed", none, .ok [], .ok [], .ok []⟩)).lookup "bad" =
      some ⟨false, [], [], [], "", some "spawn failed"⟩ :=
  ⟨by decide,
    (C9_partial_availability "good" "bad" ⟨some "deno", none, false⟩
      ⟨some "missing-cmd", none, false⟩
      (fun n =>
        if n = "good" then ⟨.ok (), none, .ok ["t1"], .ok [], .ok []⟩
        else ⟨.error "spawn failed", none, .ok [], .ok [], .ok []⟩)
      ["t1"] [] [] "spawn failed" (by decide) rfl rfl (by decide) (by decide)
      (by simp) (by simp)).2.1,
    (C9_partial_availability "good" "bad" ⟨some "deno", none, false⟩
      ⟨some "missing-cmd", none, false⟩
      (fun n =>
        if n = "good" then ⟨.ok (), none, .ok ["t1"], .ok [], .ok []⟩
        else ⟨.error "spawn failed", none, .ok [], .ok [], .ok []⟩)
      ["t1"] [] [] "spawn failed" (by decide) rfl rfl (by decide) (by decide)
      (by simp) (by simp)).2.2⟩
